import Mathlib

/-!
Verification development for the AI4P dashboard scripts
(`scrape_and_update.py` and `server.py`).

The Python functions are shallowly embedded as executable Lean
definitions.  Python strings are Lean `String`s; Python `dict` rows are
the `Row` structure; fallible Python code (bare `int(...)` calls that can
raise `ValueError`) is embedded with `Option`.  Python's in-place
mutation of row dictionaries inside `filter_rows` is embedded by
threading the row list as explicit state and recording the indices of
the appended (aliased) dictionaries.
-/

set_option maxRecDepth 4000

/-- Whitespace test used by Python's `str.strip()` / `int()` argument
stripping (ASCII whitespace; exotic Unicode whitespace is not modelled). -/
def isPySpace (c : Char) : Bool :=
  c == ' ' || c == '\t' || c == '\n' || c == '\r' || c == '\x0b' || c == '\x0c'

/-- Embeds Python `str.strip()` on a character list: drop whitespace from
both ends. -/
def stripChars (cs : List Char) : List Char :=
  ((cs.dropWhile isPySpace).reverse.dropWhile isPySpace).reverse

/-- Embeds Python `str.strip()`. -/
def pyStrip (s : String) : String := ⟨stripChars s.toList⟩

/-- Embeds Python `str.lower()` (ASCII case folding; the names this
script compares are ASCII). -/
def pyLower (s : String) : String := ⟨s.toList.map Char.toLower⟩

/-- Contiguous-sublist test on character lists. -/
def listInfix (a : List Char) : List Char → Bool
  | [] => a.isEmpty
  | c :: rest => a.isPrefixOf (c :: rest) || listInfix a rest

/-- Embeds Python's substring test `a in b` (for strings). -/
def strIn (a b : String) : Bool := listInfix a.toList b.toList

/-- Numeric value of a list of ASCII digits. -/
def parseDigitsNat (ds : List Char) : Nat :=
  ds.foldl (fun a c => 10 * a + (c.toNat - 48)) 0

/-- Embeds Python `int(s)` on an already-stripped character list:
an optional sign followed by one or more ASCII digits.  (Underscore
digit grouping and non-ASCII digits accepted by CPython are not
modelled; no input in this code base uses them.) -/
def pyIntCore (cs : List Char) : Option Int :=
  match cs with
  | '+' :: ds =>
    if !ds.isEmpty && ds.all Char.isDigit then some (parseDigitsNat ds) else none
  | '-' :: ds =>
    if !ds.isEmpty && ds.all Char.isDigit then some (-(parseDigitsNat ds : Int)) else none
  | ds =>
    if !ds.isEmpty && ds.all Char.isDigit then some (parseDigitsNat ds) else none

/-- Embeds Python `int(s)` for a string argument: strips whitespace,
then parses an optionally signed decimal integer; `none` models the
`ValueError` raised on malformed input. -/
def pyInt (s : String) : Option Int := pyIntCore (stripChars s.toList)

/-- Fuelled worker for `pyReplace`; the fuel is the length of the
subject string, which suffices because every step consumes at least one
character. -/
def replaceFuel : Nat → List Char → List Char → List Char → List Char
  | 0, _, _, s => s
  | _ + 1, _, _, [] => []
  | fuel + 1, pat, repl, c :: rest =>
    if pat.isPrefixOf (c :: rest) then
      repl ++ replaceFuel fuel pat repl ((c :: rest).drop pat.length)
    else
      c :: replaceFuel fuel pat repl rest

/-- Embeds Python `s.replace(pat, repl)`: replace all non-overlapping
occurrences left to right.  (Every call site in the scripts uses a
non-empty pattern, so Python's empty-pattern behaviour is irrelevant and
the empty pattern is mapped to the identity.) -/
def pyReplace (s pat repl : String) : String :=
  if pat.toList.isEmpty then s
  else ⟨replaceFuel s.toList.length pat.toList repl.toList s.toList⟩

/-- Embeds Python `str.isdigit()` (ASCII digits; CPython additionally
accepts some Unicode digit characters, which no input here contains). -/
def pyIsdigit (s : String) : Bool := !s.toList.isEmpty && s.toList.all Char.isDigit

/-- One scraped table row (the `dict` built in `scrape_unidash`),
fields in the order of `scrape_and_update.py`. -/
structure Row where
  name : String
  pillar : String
  func : String
  allocArea : String
  teamGroup : String
  l4_7 : String
  empCount : String
deriving Repr, DecidableEq

instance : Inhabited Row := ⟨⟨"", "", "", "", "", "", ""⟩⟩

/-- `INCLUDE_NAMES` from `scrape_and_update.py` line 36: the people to
include in the dashboard, in display order. -/
def INCLUDE_NAMES : List String :=
  ["Chuanqi Li", "Bolun Yang", "Eleanor Pachaud", "Vivian Wang (Ads)"]

/-- The matching test of `filter_rows` line 114:
`name.lower() in row["name"].lower() or row["name"].lower() in name.lower()`. -/
def matchName (includeName rowName : String) : Bool :=
  strIn (pyLower includeName) (pyLower rowName) ||
    strIn (pyLower rowName) (pyLower includeName)

/-- Index of the first row whose name matches `n` (the inner
`for row in rows: ... break` scan of `filter_rows`). -/
def firstMatchIdx (n : String) : List Row → Option Nat
  | [] => none
  | r :: rest =>
    if matchName n r.name then some 0 else (firstMatchIdx n rest).map (· + 1)

/-- One outer-loop iteration of `filter_rows` for a single include name:
the state is the (mutable) row list together with the indices of the
dictionaries appended to `filtered` so far.  A match mutates the row's
`name` in place (`row["name"] = name`) and appends that dictionary. -/
def filterStep (st : List Row × List Nat) (n : String) : List Row × List Nat :=
  match firstMatchIdx n st.1 with
  | some i => (st.1.set i { st.1.getD i default with name := n }, st.2 ++ [i])
  | none => st

/-- Embeds `filter_rows` (lines 108–118).  Because `filtered` holds
aliases of the mutated dictionaries, the final result reads each
appended index out of the final state of the row list. -/
def filter_rows (rows : List Row) : List Row :=
  let st := List.foldl filterStep (rows, []) INCLUDE_NAMES
  st.2.map fun i => st.1.getD i default

/-- Embeds `get_pill_class` (lines 121–132): CSS class from thresholds
`<70` low, `70–84` yellow, `85+` green; parse failure gives `"low"`. -/
def get_pill_class (pct_str : String) : String :=
  match pyInt (pyStrip (pyReplace pct_str "%" "")) with
  | some val => if val ≥ 85 then "green" else if val ≥ 70 then "yellow" else "low"
  | none => "low"

/-- Embeds `get_bar_color` (lines 135–145). -/
def get_bar_color (pct_str : String) : String :=
  match pyInt (pyStrip (pyReplace pct_str "%" "")) with
  | some val => if val ≥ 85 then "#166534" else if val ≥ 70 then "#92400e" else "#b91c1c"
  | none => "#b91c1c"

/-- Embeds `get_bar_chart_color` (lines 148–158). -/
def get_bar_chart_color (pct_str : String) : String :=
  match pyInt (pyStrip (pyReplace pct_str "%" "")) with
  | some val => if val ≥ 85 then "#36b37e" else if val ≥ 70 then "#f5a623" else "#b91c1c"
  | none => "#b91c1c"

example : get_pill_class "92%" = "green" := by decide
example : get_pill_class "84%" = "yellow" := by decide
example : get_pill_class "N/A" = "low" := by decide
example : filter_rows [⟨"chuanqi li x", "p", "f", "a", "t", "90%", "5"⟩] =
    [⟨"Chuanqi Li", "p", "f", "a", "t", "90%", "5"⟩] := by decide

/-- Hexadecimal digit character (lowercase, as emitted by `json.dumps`). -/
def hexDigit (n : Nat) : Char :=
  if n < 10 then Char.ofNat (48 + n) else Char.ofNat (87 + n)

/-- Four-digit hexadecimal rendering used by JSON `\uXXXX` escapes. -/
def hex4 (n : Nat) : String :=
  ⟨[hexDigit (n / 4096 % 16), hexDigit (n / 256 % 16), hexDigit (n / 16 % 16),
    hexDigit (n % 16)]⟩

/-- Escaping of one character by `json.dumps` with its default
`ensure_ascii=True`: the two-character escapes, `\uXXXX` for other
control or non-ASCII characters, and surrogate pairs beyond the BMP. -/
def jsonEscapeChar (c : Char) : String :=
  if c == '"' then "\\\""
  else if c == '\\' then "\\\\"
  else if c == '\n' then "\\n"
  else if c == '\r' then "\\r"
  else if c == '\t' then "\\t"
  else if c == '\x08' then "\\b"
  else if c == '\x0c' then "\\f"
  else if c.toNat < 0x20 then "\\u" ++ hex4 c.toNat
  else if c.toNat < 0x7f then String.singleton c
  else if c.toNat ≤ 0xffff then "\\u" ++ hex4 c.toNat
  else
    "\\u" ++ hex4 (0xd800 + (c.toNat - 0x10000) / 0x400) ++
      "\\u" ++ hex4 (0xdc00 + (c.toNat - 0x10000) % 0x400)

/-- Embeds `json.dumps` of a single string. -/
def jsonStr (s : String) : String :=
  "\"" ++ String.join (s.toList.map jsonEscapeChar) ++ "\""

/-- Embeds `json.dumps` of a list of strings (default `", "` separator). -/
def jsonDumpsStrList (l : List String) : String :=
  "[" ++ String.intercalate ", " (l.map jsonStr) ++ "]"

/-- Embeds `json.dumps` of a list of integers. -/
def jsonDumpsIntList (l : List Int) : String :=
  "[" ++ String.intercalate ", " (l.map toString) ++ "]"

/-- The HTML emitted by one iteration of the loop in `build_table_rows`
(lines 163–189). -/
def table_row_html (row : Row) : String :=
  let is_manager := row.name == "Chuanqi Li"
  let indent : String :=
    if is_manager then ""
    else if strIn "Vivian" row.name then "padding-left:48px;"
    else "padding-left:28px;"
  let row_class : String := if is_manager then " class=\"manager-row\"" else ""
  let pill := get_pill_class row.l4_7
  let bar_color := get_bar_color row.l4_7
  let pct_val_s := pyStrip (pyReplace row.l4_7 "%" "")
  "        <tr" ++ row_class ++ ">\n          <td style=\"" ++ indent ++
    "\"><span class=\"chain-arrow\">↳</span>" ++ row.name ++
    "</td>\n          <td>" ++ row.pillar ++
    "</td>\n          <td>" ++ row.func ++
    "</td>\n          <td>" ++ row.allocArea ++
    "</td>\n          <td>" ++ row.teamGroup ++
    "</td>\n          <td>\n            <span class=\"usage-pill " ++ pill ++
    "\">" ++ row.l4_7 ++
    "</span>\n            <span class=\"progress-bar-bg\"><span class=\"progress-bar-fill\" style=\"width:" ++
    pct_val_s ++ "%;background:" ++ bar_color ++
    ";\"></span></span>\n          </td>\n          <td>" ++ row.empCount ++
    "</td>\n        </tr>\n"

/-- Embeds `build_table_rows` (lines 161–190). -/
def build_table_rows (rows : List Row) : String :=
  rows.foldl (fun html row => html ++ table_row_html row) ""

/-- Result dictionary of `build_kpi_cards`. -/
structure Kpi where
  org_pct : String
  org_count : String
  highest_pct : String
  highest_name : String
  highest_count : String
  lowest_pct : String
  lowest_name : String
  lowest_count : String
deriving Repr, DecidableEq

/-- The local `pct_val` key of `build_kpi_cards` (lines 202–204):
`int(r["l4_7"].replace("%","").strip())` with `0` on any parse failure. -/
def pct_val (r : Row) : Int :=
  (pyInt (pyStrip (pyReplace r.l4_7 "%" ""))).getD 0

/-- Embeds Python `max(h :: t, key = f)`: the first element with the
maximal key (a later element replaces the current one only when its key
is strictly greater). -/
def pyMaxBy (f : Row → Int) (h : Row) (t : List Row) : Row :=
  t.foldl (fun best r => if f r > f best then r else best) h

/-- Embeds Python `min(h :: t, key = f)`: the first element with the
minimal key. -/
def pyMinBy (f : Row → Int) (h : Row) (t : List Row) : Row :=
  t.foldl (fun best r => if f r < f best then r else best) h

/-- Embeds `build_kpi_cards` (lines 193–219). -/
def build_kpi_cards (rows : List Row) : Kpi :=
  let org_row := rows.find? fun r => r.name == "Chuanqi Li"
  let org_pct := match org_row with | some r => r.l4_7 | none => "N/A"
  let org_count := match org_row with | some r => r.empCount | none => "N/A"
  match rows.filter fun r => r.name != "Chuanqi Li" with
  | [] =>
    { org_pct := org_pct, org_count := org_count,
      highest_pct := "N/A", highest_name := "N/A", highest_count := "N/A",
      lowest_pct := "N/A", lowest_name := "N/A", lowest_count := "N/A" }
  | h :: t =>
    let highest := pyMaxBy pct_val h t
    let lowest := pyMinBy pct_val h t
    { org_pct := org_pct, org_count := org_count,
      highest_pct := highest.l4_7, highest_name := highest.name,
      highest_count := highest.empCount,
      lowest_pct := lowest.l4_7, lowest_name := lowest.name,
      lowest_count := lowest.empCount }

/-- The bare `int(r["l4_7"].replace("%","").strip())` of
`build_chart_data` line 225, with no exception handler. -/
def chartInt (r : Row) : Option Int :=
  pyInt (pyStrip (pyReplace r.l4_7 "%" ""))

/-- The list comprehension of `build_chart_data` line 225: `none` models
the `ValueError` escaping from the first unparsable percentage. -/
def chartInts : List Row → Option (List Int)
  | [] => some []
  | r :: rest =>
    match chartInt r with
    | none => none
    | some v => (chartInts rest).map (v :: ·)

/-- Embeds `build_chart_data` (lines 222–227).  The labels are computed
first (line 224 always succeeds); `none` models the uncaught
`ValueError` of line 225. -/
def build_chart_data (rows : List Row) : Option (String × String × String) :=
  let labels := jsonDumpsStrList (rows.map fun r => pyReplace r.name " (Ads)" "\n(Ads)")
  match chartInts rows with
  | none => none
  | some vals =>
    some (labels, jsonDumpsIntList vals,
      jsonDumpsStrList (rows.map fun r => get_bar_chart_color r.l4_7))

/-- The `int(c) if c.isdigit() else 0` of `build_doughnut_data` line 233. -/
def doughnutVal (s : String) : Int :=
  if pyIsdigit s then (parseDigitsNat s.toList : Int) else 0

/-- Embeds `build_doughnut_data` (lines 230–234). -/
def build_doughnut_data (rows : List Row) : String × String :=
  let pdm_rows := rows.filter fun r => r.name != "Chuanqi Li"
  (jsonDumpsStrList (pdm_rows.map fun r => r.name ++ " (" ++ r.empCount ++ ")"),
    jsonDumpsIntList (pdm_rows.map fun r => doughnutVal r.empCount))
/-- Literal chunk 0 of the `generate_html` f-string template. -/
def tmpl0 : String :=
  "<!DOCTYPE html>\n<html lang=\"en\">\n<head>\n  <meta charset=\"UTF-8\" />\n  <meta name=\"viewport\" content=\"width=device-width, initial-scale=1.0\" />\n  <title>AI4P Tool Usage Dashboard – Chuanqi Li's Org</title>\n  <script src=\"https://cdn.jsdelivr.net/npm/chart.js@4.4.2/dist/chart.umd.min.js\"></script>\n  <style>\n    *, *::before, *::after \x7b box-sizing: border-box; margin: 0; padding: 0; \x7d\n    body \x7b\n      font-family: -apple-system, BlinkMacSystemFont, \"Segoe UI\", Roboto, Helvetica, Arial, sans-serif;\n      background: #f0f2f5;\n      color: #1c1e21;\n      min-height: 100vh;\n    \x7d\n    header \x7b\n      background: linear-gradient(135deg, #0866ff 0%, #0052cc 100%);\n      color: #fff;\n      padding: 28px 40px 24px;\n    \x7d\n    header .badge \x7b\n      display: inline-block;\n      background: rgba(255,255,255,0.2);\n      border-radius: 20px;\n      padding: 3px 12px;\n      font-size: 11px;\n      font-weight: 600;\n      letter-spacing: 0.8px;\n      text-transform: uppercase;\n      margin-bottom: 10px;\n    \x7d\n    header h1 \x7b font-size: 26px; font-weight: 700; line-height: 1.3; \x7d\n    header p \x7b margin-top: 6px; font-size: 13px; opacity: 0.85; \x7d\n    .header-meta \x7b display: flex; gap: 24px; margin-top: 14px; flex-wrap: wrap; \x7d\n    .header-meta span \x7b font-size: 12px; opacity: 0.8; \x7d\n    .header-meta strong \x7b opacity: 1; font-weight: 600; \x7d\n    .data-source \x7b\n      display: inline-flex;\n      align-items: center;\n      gap: 6px;\n      background: rgba(255,255,255,0.15);\n      border-radius: 6px;\n      padding: 5px 12px;\n      font-size: 11px;\n      margin-top: 12px;\n    \x7d\n    .data-source a \x7b color: #fff; text-decoration: underline; opacity: 0.9; \x7d\n    main \x7b max-width: 1200px; margin: 0 auto; padding: 32px 24px 48px; \x7d\n    .section-title \x7b\n      font-size: 13px;\n      font-weight: 700;\n      text-transform: uppercase;\n      letter-spacing: 0.7px;\n      color: #65676b;\n      margin-bottom: 14px;\n    \x7d\n    .kpi-grid \x7b\n      display: grid;\n      grid-template-columns: repeat(auto-fit, minmax(200px, 1fr));\n      gap: 16px;\n      margin-bottom: 32px;\n    \x7d\n    .kpi-card \x7b\n      background: #fff;\n      border-radius: 12px;\n      padding: 20px 22px;\n      box-shadow: 0 1px 4px rgba(0,0,0,0.08);\n      border-top: 4px solid #0866ff;\n      transition: box-shadow 0.2s;\n    \x7d\n    .kpi-card:hover \x7b box-shadow: 0 4px 16px rgba(0,0,0,0.12); \x7d\n    .kpi-card.warn  \x7b border-top-color: #f5a623; \x7d\n    .kpi-card.good  \x7b border-top-color: #36b37e; \x7d\n    .kpi-label \x7b\n      font-size: 11px;\n      font-weight: 600;\n      text-transform: uppercase;\n      letter-spacing: 0.6px;\n      color: #65676b;\n      margin-bottom: 8px;\n    \x7d\n    .kpi-value \x7b font-size: 34px; font-weight: 700; color: #1c1e21; line-height: 1; \x7d\n    .kpi-sub \x7b font-size: 12px; color: #65676b; margin-top: 6px; \x7d\n    .charts-row \x7b\n      display: grid;\n      grid-template-columns: 1fr 1fr;\n      gap: 20px;\n      margin-bottom: 32px;\n    \x7d\n    @media (max-width: 720px) \x7b .charts-row \x7b grid-template-columns: 1fr; \x7d \x7d\n    .chart-card \x7b\n      background: #fff;\n      border-radius: 12px;\n      padding: 22px 24px;\n      box-shadow: 0 1px 4px rgba(0,0,0,0.08);\n    \x7d\n    .chart-card h3 \x7b font-size: 14px; font-weight: 600; color: #1c1e21; margin-bottom: 16px; \x7d\n    .chart-wrap \x7b position: relative; height: 240px; \x7d\n    .table-card \x7b\n      background: #fff;\n      border-radius: 12px;\n      padding: 22px 24px;\n      box-shadow: 0 1px 4px rgba(0,0,0,0.08);\n      margin-bottom: 32px;\n      overflow-x: auto;\n    \x7d\n    .table-card h3 \x7b font-size: 14px; font-weight: 600; color: #1c1e21; margin-bottom: 4px; \x7d\n    .table-note \x7b font-size: 11px; color: #65676b; font-style: italic; margin-bottom: 16px; \x7d\n    table \x7b width: 100%; border-collapse: collapse; font-size: 13px; \x7d\n    thead tr \x7b background: #f0f2f5; \x7d\n    thead th \x7b\n      text-align: left;\n      padding: 10px 14px;\n      font-size: 11px;\n      font-weight: 700;\n      text-transform: uppercase;\n      letter-spacing: 0.5px;\n      color: #65676b;\n      border-bottom: 2px solid #e4e6eb;\n      white-space: nowrap;\n    \x7d\n    tbody tr \x7b border-bottom: 1px solid #e4e6eb; transition: background 0.15s; \x7d\n    tbody tr:last-child \x7b border-bottom: none; \x7d\n    tbody tr:hover \x7b background: #f7f8fa; \x7d\n    tbody td \x7b padding: 12px 14px; vertical-align: middle; \x7d\n    tbody tr.manager-row td \x7b font-weight: 700; background: #eef3ff; \x7d\n    tbody tr.manager-row:hover \x7b background: #e4ecff; \x7d\n    .chain-arrow \x7b color: #65676b; margin-right: 4px; font-size: 12px; \x7d\n    .usage-pill \x7b\n      display: inline-flex;\n      align-items: center;\n      gap: 6px;\n      border-radius: 20px;\n      padding: 4px 10px;\n      font-size: 12px;\n      font-weight: 700;\n    \x7d\n    .usage-pill.low    \x7b background: #fde8e8; color: #b91c1c; \x7d\n    .usage-pill.yellow \x7b background: #fef9c3; color: #92400e; \x7d\n    .usage-pill.green  \x7b background: #dcfce7; color: #166534; \x7d\n    .progress-bar-bg \x7b\n      background: #e4e6eb;\n      border-radius: 4px;\n      height: 6px;\n      width: 80px;\n      display: inline-block;\n      vertical-align: middle;\n      margin-left: 8px;\n    \x7d\n    .progress-bar-fill \x7b height: 100%; border-radius: 4px; \x7d\n    .scope-note \x7b\n      background: #fff;\n      border-radius: 12px;\n      padding: 16px 22px;\n      box-shadow: 0 1px 4px rgba(0,0,0,0.08);\n      margin-bottom: 32px;\n      font-size: 12px;\n      color: #444;\n      border-left: 4px solid #0866ff;\n    \x7d\n    .scope-note strong \x7b color: #1c1e21; \x7d\n    footer \x7b text-align: center; font-size: 11px; color: #65676b; padding-bottom: 24px; \x7d\n    footer a \x7b color: #0866ff; text-decoration: none; \x7d\n    .refresh-badge \x7b\n      display: inline-block;\n      background: rgba(255,255,255,0.25);\n      border-radius: 6px;\n      padding: 4px 10px;\n      font-size: 11px;\n      margin-top: 8px;\n    \x7d\n  </style>\n</head>\n<body>\n\n<header>\n  <div class=\"badge\">AI4P · Product Design · Auto-Refreshed 3×/Day</div>\n  <h1>AI4P Tool Usage Dashboard</h1>\n  <p>Manager &amp; Recursive Reports — Chuanqi Li's Org</p>\n  <div class=\"header-meta\">\n    <span><strong>Data as of:</strong> "

/-- Literal chunk 1 of the `generate_html` f-string template. -/
def tmpl1 : String :=
  "</span>\n  </div>\n  <div class=\"data-source\">\n    &#128279; Data sourced live from\n    <a href=\"https://www.internalfb.com/unidash/dashboard/ai_usage_at_meta/ai4p_by_pillar/overall_one_pager\" target=\"_blank\">UniDash · AI4P by Pillar</a>\n    &nbsp;· Last refreshed: "

/-- Literal chunk 2 of the `generate_html` f-string template. -/
def tmpl2 : String :=
  "\n  </div>\n  <div class=\"refresh-badge\">&#128260; Auto-refreshes 3× daily (8 AM, 12 PM, 6 PM PT)</div>\n</header>\n\n<main>\n\n  <div class=\"scope-note\">\n    <strong>Dashboard Scope:</strong> This dashboard shows AI4P tool usage for <strong>Chuanqi Li</strong> and her direct and recursive reports who are Product Design Managers (PDM):\n    Bolun Yang, Eleanor Pachaud, and Vivian Wang (Ads). Data is pulled directly from UniDash with Manager Name = \"Chuanqi Li\".\n  </div>\n\n  <p class=\"section-title\">Key Metrics</p>\n  <div class=\"kpi-grid\">\n    <div class=\"kpi-card\">\n      <div class=\"kpi-label\">Org AI Usage (L4+/7)</div>\n      <div class=\"kpi-value\">"

/-- Literal chunk 3 of the `generate_html` f-string template. -/
def tmpl3 : String :=
  "</div>\n      <div class=\"kpi-sub\">Chuanqi Li's full org · "

/-- Literal chunk 4 of the `generate_html` f-string template. -/
def tmpl4 : String :=
  " employees</div>\n    </div>\n    <div class=\"kpi-card good\">\n      <div class=\"kpi-label\">Highest Usage (PDM)</div>\n      <div class=\"kpi-value\">"

/-- Literal chunk 5 of the `generate_html` f-string template. -/
def tmpl5 : String :=
  "</div>\n      <div class=\"kpi-sub\">"

/-- Literal chunk 6 of the `generate_html` f-string template. -/
def tmpl6 : String :=
  " · "

/-- Literal chunk 7 of the `generate_html` f-string template. -/
def tmpl7 : String :=
  " employees</div>\n    </div>\n    <div class=\"kpi-card warn\">\n      <div class=\"kpi-label\">Lowest Usage (PDM)</div>\n      <div class=\"kpi-value\">"

/-- Literal chunk 8 of the `generate_html` f-string template. -/
def tmpl8 : String :=
  "</div>\n      <div class=\"kpi-sub\">"

/-- Literal chunk 9 of the `generate_html` f-string template. -/
def tmpl9 : String :=
  " · "

/-- Literal chunk 10 of the `generate_html` f-string template. -/
def tmpl10 : String :=
  " employees</div>\n    </div>\n  </div>\n\n  <p class=\"section-title\">Usage Breakdown</p>\n  <div class=\"charts-row\">\n    <div class=\"chart-card\">\n      <h3>AI Usage Rate (L4+/7) by Manager</h3>\n      <div class=\"chart-wrap\">\n        <canvas id=\"barChart\"></canvas>\n      </div>\n    </div>\n    <div class=\"chart-card\">\n      <h3>Team Size Distribution (PDMs)</h3>\n      <div class=\"chart-wrap\">\n        <canvas id=\"doughnutChart\"></canvas>\n      </div>\n    </div>\n  </div>\n\n  <p class=\"section-title\">Manager and Recursive Reports</p>\n  <div class=\"table-card\">\n    <h3>Detailed View — Manager: Chuanqi Li</h3>\n    <p class=\"table-note\">\n      Note: This table is impacted by the global filters above, except date (which is limited to the latest ds).\n      Data sourced directly from UniDash AI4P by Pillar dashboard, Manager Name = \"Chuanqi Li\". As of "

/-- Literal chunk 11 of the `generate_html` f-string template. -/
def tmpl11 : String :=
  ".\n    </p>\n    <table>\n      <thead>\n        <tr>\n          <th>Mgr + Chain</th>\n          <th>Pillar Name</th>\n          <th>Function</th>\n          <th>Allocation Area Name</th>\n          <th>Team Group Name</th>\n          <th>L4+/7</th>\n          <th>Recursive Employee Count</th>\n        </tr>\n      </thead>\n      <tbody>\n"

/-- Literal chunk 12 of the `generate_html` f-string template. -/
def tmpl12 : String :=
  "      </tbody>\n    </table>\n  </div>\n\n  <div style=\"background:#fff;border-radius:12px;padding:18px 24px;box-shadow:0 1px 4px rgba(0,0,0,0.08);margin-bottom:32px;\">\n    <p class=\"section-title\" style=\"margin-bottom:10px;\">Usage Rate Legend (L4+/7)</p>\n    <div style=\"display:flex;gap:16px;flex-wrap:wrap;font-size:12px;align-items:center;\">\n      <span><span class=\"usage-pill low\">Under 70%</span> &nbsp;Red — needs attention</span>\n      <span><span class=\"usage-pill yellow\">70–84%</span> &nbsp;Yellow — progressing</span>\n      <span><span class=\"usage-pill green\">85–100%</span> &nbsp;Green — on track</span>\n    </div>\n    <p style=\"margin-top:12px;font-size:11px;color:#65676b;\">\n      <strong>L4+/7</strong> = Active on 4 or more of the last 7 days. Includes internal AI tools, Gemini, Zoom AI Companion, Figma AI, and other covered surfaces.\n    </p>\n  </div>\n\n</main>\n\n<footer>\n  Data sourced live from <a href=\"https://www.internalfb.com/unidash/dashboard/ai_usage_at_meta/ai4p_by_pillar/overall_one_pager\" target=\"_blank\">UniDash · AI4P by Pillar</a>\n  &nbsp;|&nbsp; Manager: Chuanqi Li &nbsp;|&nbsp; Function: PD &nbsp;|&nbsp; Data as of "

/-- Literal chunk 13 of the `generate_html` f-string template. -/
def tmpl13 : String :=
  " &nbsp;|&nbsp; Last refreshed: "

/-- Literal chunk 14 of the `generate_html` f-string template. -/
def tmpl14 : String :=
  "\n</footer>\n\n<script>\n  const barCtx = document.getElementById('barChart').getContext('2d');\n  new Chart(barCtx, \x7b\n    type: 'bar',\n    data: \x7b\n      labels: "

/-- Literal chunk 15 of the `generate_html` f-string template. -/
def tmpl15 : String :=
  ",\n      datasets: [\x7b\n        label: 'L4+/7 Usage Rate (%)',\n        data: "

/-- Literal chunk 16 of the `generate_html` f-string template. -/
def tmpl16 : String :=
  ",\n        backgroundColor: "

/-- Literal chunk 17 of the `generate_html` f-string template. -/
def tmpl17 : String :=
  ",\n        borderRadius: 6,\n        borderSkipped: false,\n      \x7d]\n    \x7d,\n    options: \x7b\n      responsive: true,\n      maintainAspectRatio: false,\n      plugins: \x7b\n        legend: \x7b display: false \x7d,\n        tooltip: \x7b\n          callbacks: \x7b\n            label: ctx => ` $\x7bctx.parsed.y\x7d% AI usage rate (L4+/7)`\n          \x7d\n        \x7d\n      \x7d,\n      scales: \x7b\n        y: \x7b\n          beginAtZero: true,\n          max: 100,\n          ticks: \x7b callback: v => v + '%', font: \x7b size: 11 \x7d \x7d,\n          grid: \x7b color: '#e4e6eb' \x7d\n        \x7d,\n        x: \x7b\n          ticks: \x7b font: \x7b size: 11 \x7d \x7d,\n          grid: \x7b display: false \x7d\n        \x7d\n      \x7d\n    \x7d\n  \x7d);\n\n  const dCtx = document.getElementById('doughnutChart').getContext('2d');\n  new Chart(dCtx, \x7b\n    type: 'doughnut',\n    data: \x7b\n      labels: "

/-- Literal chunk 18 of the `generate_html` f-string template. -/
def tmpl18 : String :=
  ",\n      datasets: [\x7b\n        data: "

/-- Literal chunk 19 of the `generate_html` f-string template. -/
def tmpl19 : String :=
  ",\n        backgroundColor: ['#f5a623', '#6554c0', '#36b37e'],\n        borderWidth: 2,\n        borderColor: '#fff',\n        hoverOffset: 6\n      \x7d]\n    \x7d,\n    options: \x7b\n      responsive: true,\n      maintainAspectRatio: false,\n      cutout: '62%',\n      plugins: \x7b\n        legend: \x7b\n          position: 'bottom',\n          labels: \x7b font: \x7b size: 11 \x7d, padding: 12, boxWidth: 12 \x7d\n        \x7d,\n        tooltip: \x7b\n          callbacks: \x7b\n            label: ctx => ` $\x7bctx.label\x7d: $\x7bctx.parsed\x7d employees`\n          \x7d\n        \x7d\n      \x7d\n    \x7d\n  \x7d);\n</script>\n</body>\n</html>"


/-- Embeds `generate_html` (lines 237–590): computes the KPI cards, the
table body and the chart arrays, then substitutes them into the template
chunks in source order.  `none` models the uncaught `ValueError` that
`build_chart_data` raises on an unparsable percentage (the KPI cards and
table body of lines 238–239 are computed before that failure). -/
def generate_html (rows : List Row) (retrieved_at data_as_of : String) :
    Option String :=
  let kpi := build_kpi_cards rows
  let table_rows := build_table_rows rows
  match build_chart_data rows with
  | none => none
  | some (bar_labels, bar_data, bar_colors) =>
    let (doughnut_labels, doughnut_data) := build_doughnut_data rows
    some (tmpl0 ++ data_as_of ++ tmpl1 ++ retrieved_at ++ tmpl2 ++
      kpi.org_pct ++ tmpl3 ++ kpi.org_count ++ tmpl4 ++ kpi.highest_pct ++
      tmpl5 ++ kpi.highest_name ++ tmpl6 ++ kpi.highest_count ++ tmpl7 ++
      kpi.lowest_pct ++ tmpl8 ++ kpi.lowest_name ++ tmpl9 ++
      kpi.lowest_count ++ tmpl10 ++ data_as_of ++ tmpl11 ++ table_rows ++
      tmpl12 ++ data_as_of ++ tmpl13 ++ retrieved_at ++ tmpl14 ++
      bar_labels ++ tmpl15 ++ bar_data ++ tmpl16 ++ bar_colors ++ tmpl17 ++
      doughnut_labels ++ tmpl18 ++ doughnut_data ++ tmpl19)

/-- Outcome of one run of `main` after a successful scrape. -/
inductive RunResult where
  /-- The `sys.exit(1)` of line 626: no matching rows. -/
  | aborted : RunResult
  /-- An exception escaped from `generate_html`, so the script died
  before `HTML_OUTPUT.write_text` (line 637). -/
  | crashed : RunResult
  /-- The dashboard was generated and written. -/
  | completed (html : String) : RunResult
deriving Repr, DecidableEq

/-- Embeds the post-scrape part of `main` (lines 620–638) as a function
from the scraped rows and the previously published `index.html` content
to the run outcome and the final content of `index.html`.  Logging and
the Google Drive upload (which never touch the local file) are not
modelled. -/
def runMain (raw : List Row) (prevFile retrieved_at data_as_of : String) :
    RunResult × String :=
  let rows := filter_rows raw
  if rows.isEmpty then (.aborted, prevFile)
  else
    match generate_html rows retrieved_at data_as_of with
    | none => (.crashed, prevFile)
    | some html => (.completed html, html)

/-- The URL rules registered by `server.py`: the index route and the
catch-all static file route, and nothing else. -/
def dashboardRoutes : List String := ["/", "/<path:filename>"]

/-- Embeds the dispatch of the Flask app in `server.py` over its two
routes: `"/"` is served by `index` (which returns `index.html` from the
dashboard directory), and any other path is served by `static_files`
(which returns the file named by the remainder of the path, relative to
the same directory; Flask's `path` converter matches any non-empty
remainder not starting with a slash).  The result is the name of the
file served from `DASHBOARD_DIR`. -/
def serveRequest (path : String) : Option String :=
  if path = "/" then some "index.html"
  else
    match path.toList with
    | '/' :: c :: rest => if c ≠ '/' then some ⟨c :: rest⟩ else none
    | _ => none

/-- Sequential reformulation of `filter_rows` used by the proofs below:
the claimed row is emitted at claim time instead of being read back out
of the final state (`foldl_filterStep_eq` proves both views equal). -/
def filterRowsSeq : List String → List Row → List Row
  | [], _ => []
  | n :: ns, S =>
    match firstMatchIdx n S with
    | some i =>
      { S.getD i default with name := n } ::
        filterRowsSeq ns (S.set i { S.getD i default with name := n })
    | none => filterRowsSeq ns S

/-- The row filter as claim C1 words it: for each canonical name in
order, the first input row whose original name matches it, renamed to
the canonical form; all other rows dropped. -/
def filter_rows_claimed (rows : List Row) : List Row :=
  INCLUDE_NAMES.filterMap fun n =>
    (rows.find? fun r => matchName n r.name).map fun r => { r with name := n }

/-- Rank of a pill bucket, for stating monotonicity of the bucketing. -/
def pillRank (s : String) : Nat :=
  if s = "green" then 2 else if s = "yellow" then 1 else 0

/-- A row whose name matches two include names: "ang" is a substring of
both "Bolun Yang" and "Vivian Wang (Ads)" (case-insensitively). -/
def angRow : Row := ⟨"ang", "p", "f", "a", "t", "50%", "3"⟩

/-- Concrete input of claim C3: the manager row and three PDM rows with
percentages 92%, 81% and 65%. -/
def demoRows : List Row :=
  [⟨"Chuanqi Li", "AI4P", "PD", "A", "T", "88%", "120"⟩,
   ⟨"Bolun Yang", "AI4P", "PD", "A", "T", "92%", "30"⟩,
   ⟨"Eleanor Pachaud", "AI4P", "PD", "A", "T", "81%", "40"⟩,
   ⟨"Vivian Wang (Ads)", "AI4P", "PD", "A", "T", "65%", "20"⟩]

/-- A non-manager row with an unparsable percentage string. -/
def naRow : Row := ⟨"Bolun Yang", "AI4P", "PD", "A", "T", "N/A", "30"⟩

/-- A non-manager row whose percentage parses to 0. -/
def zeroRow : Row := ⟨"Eleanor Pachaud", "AI4P", "PD", "A", "T", "0%", "40"⟩

/-- A non-manager row with percentage 50%. -/
def fiftyRow : Row := ⟨"Vivian Wang (Ads)", "AI4P", "PD", "A", "T", "50%", "20"⟩

theorem getD_set_ne {S : List Row} {i j : Nat} {r d : Row} (h : i ≠ j) :
    (S.set i r).getD j d = S.getD j d := by
  simp [List.getD_eq_getElem?_getD, List.getElem?_set_ne h]

theorem getD_set_self {S : List Row} {i : Nat} {r d : Row} (h : i < S.length) :
    (S.set i r).getD i d = r := by
  simp [List.getD_eq_getElem?_getD, List.getElem?_set_self h]

theorem firstMatchIdx_cons (n : String) (r : Row) (T : List Row) :
    firstMatchIdx n (r :: T) =
      if matchName n r.name then some 0 else (firstMatchIdx n T).map (· + 1) :=
  rfl

theorem firstMatchIdx_some {n : String} {S : List Row} {i : Nat}
    (h : firstMatchIdx n S = some i) :
    i < S.length ∧ matchName n ((S.getD i default).name) = true := by
  induction S generalizing i with
  | nil => simp [firstMatchIdx] at h
  | cons r T ih =>
    rw [firstMatchIdx_cons] at h
    by_cases hm : matchName n r.name
    · rw [if_pos hm] at h
      cases h
      simpa using hm
    · rw [if_neg hm] at h
      obtain ⟨j, hj, rfl⟩ := Option.map_eq_some'.mp h
      obtain ⟨h1, h2⟩ := ih hj
      refine ⟨by simpa using Nat.succ_lt_succ h1, ?_⟩
      simpa [List.getD_cons_succ] using h2

theorem firstMatchIdx_eq_none_iff {n : String} {S : List Row} :
    firstMatchIdx n S = none ↔ ∀ r ∈ S, matchName n r.name = false := by
  induction S with
  | nil => simp [firstMatchIdx]
  | cons r T ih =>
    by_cases hm : matchName n r.name
    · simp [firstMatchIdx, hm]
    · simp [firstMatchIdx, hm, ih]

theorem find?_eq_firstMatchIdx (n : String) (S : List Row) :
    S.find? (fun r => matchName n r.name) =
      (firstMatchIdx n S).map fun i => S.getD i default := by
  induction S with
  | nil => rfl
  | cons r T ih =>
    rw [firstMatchIdx_cons]
    cases hm : matchName n r.name with
    | true => simp [List.find?, hm]
    | false =>
      simp only [List.find?, hm, Bool.false_eq_true, if_false]
      rw [ih]
      cases firstMatchIdx n T <;> simp [List.getD_cons_succ]

theorem foldl_filterStep_eq (names : List String) :
    ∀ (S : List Row) (idxs : List Nat),
      names.Pairwise (fun a b => matchName b a = false) →
      (∀ i ∈ idxs, ∀ n ∈ names, matchName n ((S.getD i default).name) = false) →
      ((List.foldl filterStep (S, idxs) names).2.map
          fun i => (List.foldl filterStep (S, idxs) names).1.getD i default) =
        (idxs.map fun i => S.getD i default) ++ filterRowsSeq names S := by
  induction names with
  | nil =>
    intro S idxs _ _
    simp [filterRowsSeq]
  | cons n ns ih =>
    intro S idxs hpw hcl
    obtain ⟨hhead, htail⟩ := List.pairwise_cons.mp hpw
    rw [List.foldl_cons]
    cases hfm : firstMatchIdx n S with
    | none =>
      have hstep : filterStep (S, idxs) n = (S, idxs) := by
        simp [filterStep, hfm]
      rw [hstep]
      have hseq : filterRowsSeq (n :: ns) S = filterRowsSeq ns S := by
        simp [filterRowsSeq, hfm]
      rw [hseq]
      exact ih S idxs htail fun i hi n' hn' => hcl i hi n' (List.mem_cons_of_mem _ hn')
    | some i =>
      obtain ⟨hlt, hmt⟩ := firstMatchIdx_some hfm
      have hnotmem : i ∉ idxs := by
        intro hmem
        have := hcl i hmem n (List.mem_cons_self _ _)
        rw [this] at hmt
        exact Bool.false_ne_true hmt
      have hstep : filterStep (S, idxs) n =
          (S.set i { S.getD i default with name := n }, idxs ++ [i]) := by
        simp [filterStep, hfm]
      rw [hstep]
      have hcl' : ∀ j ∈ idxs ++ [i], ∀ n' ∈ ns,
          matchName n' (((S.set i { S.getD i default with name := n }).getD j
            default).name) = false := by
        intro j hj n' hn'
        rcases List.mem_append.mp hj with hj | hj
        · have hne : i ≠ j := fun he => hnotmem (he ▸ hj)
          rw [getD_set_ne hne]
          exact hcl j hj n' (List.mem_cons_of_mem _ hn')
        · have hji : j = i := by simpa using hj
          subst hji
          rw [getD_set_self hlt]
          exact hhead n' hn'
      have hconc := ih _ (idxs ++ [i]) htail hcl'
      rw [hconc]
      have hseq : filterRowsSeq (n :: ns) S =
          { S.getD i default with name := n } ::
            filterRowsSeq ns (S.set i { S.getD i default with name := n }) := by
        simp [filterRowsSeq, hfm]
      rw [hseq, List.map_append]
      have hmap : (idxs.map fun j =>
          (S.set i { S.getD i default with name := n }).getD j default) =
          idxs.map fun j => S.getD j default := by
        apply List.map_congr_left
        intro j hj
        exact getD_set_ne (fun he => hnotmem (he ▸ hj))
      rw [hmap]
      have hsingle : (([i] : List Nat).map fun j =>
          (S.set i { S.getD i default with name := n }).getD j default) =
          [{ S.getD i default with name := n }] := by
        simp only [List.map_cons, List.map_nil]
        rw [getD_set_self hlt]
      rw [hsingle, List.append_assoc]
      rfl

/-- The stateful embedding of `filter_rows` agrees with its sequential
reformulation, because rows already claimed (and renamed to a canonical
include name) are never matched again by a later include name. -/
theorem filter_rows_eq_seq (rows : List Row) :
    filter_rows rows = filterRowsSeq INCLUDE_NAMES rows := by
  have h := foldl_filterStep_eq INCLUDE_NAMES rows [] (by decide) (by simp)
  simpa [filter_rows] using h

theorem getD_mem {S : List Row} {i : Nat} (h : i < S.length) :
    S.getD i default ∈ S := by
  rw [List.getD_eq_getElem?_getD, List.getElem?_eq_getElem h]
  exact List.getElem_mem h

theorem filterRowsSeq_nil_state (names : List String) :
    filterRowsSeq names [] = [] := by
  induction names with
  | nil => rfl
  | cons n ns ih => simp [filterRowsSeq, firstMatchIdx, ih]

theorem filterRowsSeq_map_name_sublist (names : List String) :
    ∀ S : List Row, ((filterRowsSeq names S).map Row.name).Sublist names := by
  induction names with
  | nil => intro S; simp [filterRowsSeq]
  | cons n ns ih =>
    intro S
    cases hfm : firstMatchIdx n S with
    | none =>
      simp only [filterRowsSeq, hfm]
      exact (ih S).cons n
    | some i =>
      simp only [filterRowsSeq, hfm, List.map_cons]
      exact (ih _).cons₂ n

theorem filterRowsSeq_cons_skip (names : List String) :
    ∀ (r : Row) (T : List Row), (∀ n ∈ names, matchName n r.name = false) →
      filterRowsSeq names (r :: T) = filterRowsSeq names T := by
  induction names with
  | nil => intro r T _; rfl
  | cons n ns ih =>
    intro r T h
    have hr : matchName n r.name = false := h n (List.mem_cons_self _ _)
    have htl : ∀ n' ∈ ns, matchName n' r.name = false :=
      fun n' hn' => h n' (List.mem_cons_of_mem _ hn')
    cases hfm : firstMatchIdx n T with
    | none =>
      have hfm' : firstMatchIdx n (r :: T) = none := by
        rw [firstMatchIdx_cons, if_neg (by simp [hr]), hfm]; rfl
      simp only [filterRowsSeq, hfm, hfm']
      exact ih r T htl
    | some i =>
      have hfm' : firstMatchIdx n (r :: T) = some (i + 1) := by
        rw [firstMatchIdx_cons, if_neg (by simp [hr]), hfm]; rfl
      simp only [filterRowsSeq, hfm, hfm', List.getD_cons_succ]
      rw [show (r :: T).set (i + 1) { T.getD i default with name := n } =
        r :: T.set i { T.getD i default with name := n } from rfl]
      rw [ih r _ htl]

theorem filterRowsSeq_fixed (names : List String) :
    ∀ S : List Row, names.Nodup →
      (∀ a ∈ names, ∀ b ∈ names, matchName a b = (a == b)) →
      ((S.map Row.name).Sublist names) → filterRowsSeq names S = S := by
  induction names with
  | nil =>
    intro S _ _ hsub
    have hS : S = [] := by simpa using List.sublist_nil.mp hsub
    rw [hS]; rfl
  | cons n ns ih =>
    intro S hnd hmm hsub
    obtain ⟨hn_notin, hnd'⟩ := List.nodup_cons.mp hnd
    have hmm' : ∀ a ∈ ns, ∀ b ∈ ns, matchName a b = (a == b) :=
      fun a ha b hb =>
        hmm a (List.mem_cons_of_mem _ ha) b (List.mem_cons_of_mem _ hb)
    cases S with
    | nil => exact filterRowsSeq_nil_state _
    | cons r T =>
      rw [List.map_cons] at hsub
      cases hsub with
      | cons _ hsub' =>
        have hnone : firstMatchIdx n (r :: T) = none := by
          rw [firstMatchIdx_eq_none_iff]
          intro r' hr'
          have hmem : r'.name ∈ ns := by
            apply hsub'.subset
            rcases List.mem_cons.mp hr' with he | hr'T
            · rw [he]; exact List.mem_cons_self _ _
            · exact List.mem_cons_of_mem _ (List.mem_map_of_mem _ hr'T)
          rw [hmm n (List.mem_cons_self _ _) r'.name (List.mem_cons_of_mem _ hmem)]
          have hne : n ≠ r'.name := fun he => hn_notin (he ▸ hmem)
          simp [hne]
        simp only [filterRowsSeq, hnone]
        apply ih (r :: T) hnd' hmm'
        rw [List.map_cons]
        exact hsub'
      | cons₂ _ hsub' =>
        have hmatch_rr : matchName r.name r.name = true := by
          rw [hmm r.name (List.mem_cons_self _ _) r.name (List.mem_cons_self _ _)]
          simp
        have hfirst : firstMatchIdx r.name (r :: T) = some 0 := by
          rw [firstMatchIdx_cons, if_pos hmatch_rr]
        simp only [filterRowsSeq, hfirst]
        have hr_eta : { (r :: T).getD 0 default with name := r.name } = r := by
          cases r
          rfl
        rw [hr_eta]
        rw [show (r :: T).set 0 r = r :: T from rfl]
        have hskip : ∀ n' ∈ ns, matchName n' r.name = false := by
          intro n' hn'
          rw [hmm n' (List.mem_cons_of_mem _ hn') r.name (List.mem_cons_self _ _)]
          have hne : n' ≠ r.name := fun he => hn_notin (he ▸ hn')
          simp [hne]
        rw [filterRowsSeq_cons_skip ns r T hskip, ih T hnd' hmm' hsub']

theorem find?_set_of_false {S : List Row} {r' : Row} {p : Row → Bool} :
    ∀ {i : Nat}, p (S.getD i default) = false → p r' = false →
      (S.set i r').find? p = S.find? p := by
  induction S with
  | nil => intro i _ _; rfl
  | cons a T ih =>
    intro i h1 h2
    cases i with
    | zero =>
      rw [List.getD_cons_zero] at h1
      rw [show (a :: T).set 0 r' = r' :: T from rfl]
      simp [List.find?, h1, h2]
    | succ j =>
      rw [List.getD_cons_succ] at h1
      rw [show (a :: T).set (j + 1) r' = a :: T.set j r' from rfl]
      cases hpa : p a with
      | true => simp [List.find?, hpa]
      | false =>
        simp only [List.find?, hpa]
        exact ih h1 h2

theorem filterRowsSeq_eq_claimed (names : List String) :
    ∀ S : List Row, names.Nodup →
      names.Pairwise (fun a b => matchName b a = false) →
      (∀ r ∈ S, ∀ n₁ ∈ names, ∀ n₂ ∈ names,
        matchName n₁ r.name = true → matchName n₂ r.name = true → n₁ = n₂) →
      filterRowsSeq names S = names.filterMap fun n =>
        (S.find? fun r => matchName n r.name).map fun r => { r with name := n } := by
  induction names with
  | nil => intro S _ _ _; rfl
  | cons n ns ih =>
    intro S hnd hpw hone
    obtain ⟨hn_notin, hnd'⟩ := List.nodup_cons.mp hnd
    obtain ⟨hhead, htail⟩ := List.pairwise_cons.mp hpw
    have hone' : ∀ r ∈ S, ∀ n₁ ∈ ns, ∀ n₂ ∈ ns,
        matchName n₁ r.name = true → matchName n₂ r.name = true → n₁ = n₂ :=
      fun r hr n₁ h₁ n₂ h₂ => hone r hr n₁ (List.mem_cons_of_mem _ h₁) n₂
        (List.mem_cons_of_mem _ h₂)
    cases hfm : firstMatchIdx n S with
    | none =>
      have hfind : ((S.find? fun r => matchName n r.name).map
          fun r => { r with name := n }) = none := by
        rw [find?_eq_firstMatchIdx, hfm]; rfl
      simp only [filterRowsSeq, hfm, List.filterMap_cons, hfind]
      exact ih S hnd' htail hone'
    | some i =>
      obtain ⟨hlt, hmt⟩ := firstMatchIdx_some hfm
      have hfind : ((S.find? fun r => matchName n r.name).map
          fun r => { r with name := n }) =
          some { S.getD i default with name := n } := by
        rw [find?_eq_firstMatchIdx, hfm]; rfl
      simp only [filterRowsSeq, hfm, List.filterMap_cons, hfind]
      congr 1
      have honeSet : ∀ r ∈ S.set i { S.getD i default with name := n },
          ∀ n₁ ∈ ns, ∀ n₂ ∈ ns,
          matchName n₁ r.name = true → matchName n₂ r.name = true → n₁ = n₂ := by
        intro r hr n₁ h₁ n₂ h₂ hm₁ hm₂
        rcases List.mem_or_eq_of_mem_set hr with hrS | hre
        · exact hone' r hrS n₁ h₁ n₂ h₂ hm₁ hm₂
        · rw [hre] at hm₁
          rw [hhead n₁ h₁] at hm₁
          exact absurd hm₁ (Bool.false_ne_true)
      rw [ih _ hnd' htail honeSet]
      apply List.filterMap_congr
      intro n' hn'
      have hp1 : matchName n' ((S.getD i default).name) = false := by
        cases hcon : matchName n' ((S.getD i default).name) with
        | false => rfl
        | true =>
          have hmem : S.getD i default ∈ S := getD_mem hlt
          have heq := hone _ hmem n' (List.mem_cons_of_mem _ hn') n
            (List.mem_cons_self _ _) hcon hmt
          exact absurd heq fun he => hn_notin (he ▸ hn')
      have hp2 : matchName n' (Row.name { S.getD i default with name := n }) =
          false := hhead n' hn'
      rw [find?_set_of_false hp1 hp2]

theorem pyMaxBy_mem (f : Row → Int) : ∀ (t : List Row) (h : Row),
    pyMaxBy f h t ∈ h :: t := by
  intro t
  induction t with
  | nil => intro h; simp [pyMaxBy]
  | cons x t' ih =>
    intro h
    rw [show pyMaxBy f h (x :: t') = pyMaxBy f (if f x > f h then x else h) t'
      from rfl]
    rcases List.mem_cons.mp (ih (if f x > f h then x else h)) with hm | hm
    · rw [hm]
      split
      · exact List.mem_cons_of_mem _ (List.mem_cons_self _ _)
      · exact List.mem_cons_self _ _
    · exact List.mem_cons_of_mem _ (List.mem_cons_of_mem _ hm)

theorem pyMaxBy_ge (f : Row → Int) : ∀ (t : List Row) (h : Row),
    ∀ r ∈ h :: t, f r ≤ f (pyMaxBy f h t) := by
  intro t
  induction t with
  | nil =>
    intro h r hr
    rcases List.mem_cons.mp hr with he | he
    · rw [he]; exact le_refl _
    · simp at he
  | cons x t' ih =>
    intro h r hr
    rw [show pyMaxBy f h (x :: t') = pyMaxBy f (if f x > f h then x else h) t'
      from rfl]
    have hh : f h ≤ f (if f x > f h then x else h) := by
      split
      · omega
      · exact le_refl _
    have hx : f x ≤ f (if f x > f h then x else h) := by
      split
      · exact le_refl _
      · omega
    rcases List.mem_cons.mp hr with he | he
    · rw [he]
      exact hh.trans (ih _ _ (List.mem_cons_self _ _))
    rcases List.mem_cons.mp he with he' | he'
    · rw [he']
      exact hx.trans (ih _ _ (List.mem_cons_self _ _))
    · exact ih _ r (List.mem_cons_of_mem _ he')

theorem pyMinBy_mem (f : Row → Int) : ∀ (t : List Row) (h : Row),
    pyMinBy f h t ∈ h :: t := by
  intro t
  induction t with
  | nil => intro h; simp [pyMinBy]
  | cons x t' ih =>
    intro h
    rw [show pyMinBy f h (x :: t') = pyMinBy f (if f x < f h then x else h) t'
      from rfl]
    rcases List.mem_cons.mp (ih (if f x < f h then x else h)) with hm | hm
    · rw [hm]
      split
      · exact List.mem_cons_of_mem _ (List.mem_cons_self _ _)
      · exact List.mem_cons_self _ _
    · exact List.mem_cons_of_mem _ (List.mem_cons_of_mem _ hm)

theorem pyMinBy_le (f : Row → Int) : ∀ (t : List Row) (h : Row),
    ∀ r ∈ h :: t, f (pyMinBy f h t) ≤ f r := by
  intro t
  induction t with
  | nil =>
    intro h r hr
    rcases List.mem_cons.mp hr with he | he
    · rw [he]; exact le_refl _
    · simp at he
  | cons x t' ih =>
    intro h r hr
    rw [show pyMinBy f h (x :: t') = pyMinBy f (if f x < f h then x else h) t'
      from rfl]
    have hh : f (if f x < f h then x else h) ≤ f h := by
      split
      · omega
      · exact le_refl _
    have hx : f (if f x < f h then x else h) ≤ f x := by
      split
      · exact le_refl _
      · omega
    rcases List.mem_cons.mp hr with he | he
    · rw [he]
      exact (ih _ _ (List.mem_cons_self _ _)).trans hh
    rcases List.mem_cons.mp he with he' | he'
    · rw [he']
      exact (ih _ _ (List.mem_cons_self _ _)).trans hx
    · exact ih _ r (List.mem_cons_of_mem _ he')

theorem build_kpi_cards_org (rows : List Row) :
    (build_kpi_cards rows).org_pct =
      (match rows.find? fun x => x.name == "Chuanqi Li" with
        | some r => r.l4_7 | none => "N/A") ∧
    (build_kpi_cards rows).org_count =
      (match rows.find? fun x => x.name == "Chuanqi Li" with
        | some r => r.empCount | none => "N/A") := by
  simp only [build_kpi_cards]
  cases rows.filter fun x => x.name != "Chuanqi Li" with
  | nil => exact ⟨rfl, rfl⟩
  | cons a t => exact ⟨rfl, rfl⟩

theorem build_kpi_cards_pdm {rows : List Row} {h : Row} {t : List Row}
    (hpdm : (rows.filter fun x => x.name != "Chuanqi Li") = h :: t) :
    (build_kpi_cards rows).highest_pct = (pyMaxBy pct_val h t).l4_7 ∧
    (build_kpi_cards rows).highest_name = (pyMaxBy pct_val h t).name ∧
    (build_kpi_cards rows).lowest_pct = (pyMinBy pct_val h t).l4_7 ∧
    (build_kpi_cards rows).lowest_name = (pyMinBy pct_val h t).name := by
  simp only [build_kpi_cards, hpdm]
  exact ⟨trivial, trivial, trivial, trivial⟩

theorem pill_closed_form : ∀ n : Nat, n < 101 →
    get_pill_class (toString n ++ "%") =
      if 85 ≤ n then "green" else if 70 ≤ n then "yellow" else "low" := by
  decide

/-- C1 (counterexample to the claim as stated): the single row named
"ang" matches both "Bolun Yang" and "Vivian Wang (Ads)", so the reading
"the first matching input row per canonical name, renamed" keeps it
twice; `filter_rows` renames the dictionary in place when "Bolun Yang"
claims it, after which "Vivian Wang (Ads)" no longer matches it, so the
row is kept once. -/
theorem filter_rows_claim_counterexample :
    filter_rows [angRow] ≠ filter_rows_claimed [angRow] := by decide

/-- C1 (amended): provided every input row's name matches at most one of
the four names in INCLUDE_NAMES, `filter_rows` keeps exactly the first
matching row per canonical name — renamed to the canonical form, in
INCLUDE_NAMES order — and drops all other rows. -/
theorem filter_rows_unique_match_characterization (rows : List Row)
    (hone : ∀ r ∈ rows, ∀ n₁ ∈ INCLUDE_NAMES, ∀ n₂ ∈ INCLUDE_NAMES,
      matchName n₁ r.name = true → matchName n₂ r.name = true → n₁ = n₂) :
    filter_rows rows = filter_rows_claimed rows := by
  rw [filter_rows_eq_seq]
  exact filterRowsSeq_eq_claimed INCLUDE_NAMES rows (by decide) (by decide) hone

/-- Witness for the amended C1 theorem at a concrete input whose row
name matches exactly one include name. -/
theorem filter_rows_unique_match_characterization_witness :
    filter_rows [⟨"BOLUN yang", "p", "f", "a", "t", "88%", "7"⟩] =
      filter_rows_claimed [⟨"BOLUN yang", "p", "f", "a", "t", "88%", "7"⟩] :=
  filter_rows_unique_match_characterization _ (by decide)

/-- C2: for percentage strings "NN%" with NN ≤ 100, the pill bucket is
"green" exactly for NN ≥ 85, "yellow" exactly for 70 ≤ NN ≤ 84, "low"
exactly for NN < 70, and the bucket is monotone in NN. -/
theorem get_pill_class_buckets_exact_monotone (n m : Nat) (hn : n ≤ 100)
    (hm : m ≤ n) :
    ((get_pill_class (toString n ++ "%") = "green") ↔ 85 ≤ n) ∧
    ((get_pill_class (toString n ++ "%") = "yellow") ↔ (70 ≤ n ∧ n ≤ 84)) ∧
    ((get_pill_class (toString n ++ "%") = "low") ↔ n < 70) ∧
    pillRank (get_pill_class (toString m ++ "%")) ≤
      pillRank (get_pill_class (toString n ++ "%")) := by
  have hcn := pill_closed_form n (by omega)
  have hcm := pill_closed_form m (by omega)
  rw [hcn, hcm]
  refine ⟨?_, ?_, ?_, ?_⟩
  · split_ifs with h1 h2
    · exact iff_of_true rfl h1
    · exact iff_of_false (by decide) h1
    · exact iff_of_false (by decide) h1
  · split_ifs with h1 h2
    · exact iff_of_false (by decide) (by omega)
    · exact iff_of_true rfl (by omega)
    · exact iff_of_false (by decide) (by omega)
  · split_ifs with h1 h2
    · exact iff_of_false (by decide) (by omega)
    · exact iff_of_false (by decide) (by omega)
    · exact iff_of_true rfl (by omega)
  · split_ifs <;> first | decide | omega

/-- Witness for the C2 theorem at NN = 92 and 70. -/
theorem get_pill_class_buckets_exact_monotone_witness :
    ((get_pill_class (toString 92 ++ "%") = "green") ↔ 85 ≤ 92) ∧
    ((get_pill_class (toString 92 ++ "%") = "yellow") ↔ (70 ≤ 92 ∧ 92 ≤ 84)) ∧
    ((get_pill_class (toString 92 ++ "%") = "low") ↔ 92 < 70) ∧
    pillRank (get_pill_class (toString 70 ++ "%")) ≤
      pillRank (get_pill_class (toString 92 ++ "%")) :=
  get_pill_class_buckets_exact_monotone 92 70 (by decide) (by decide)

/-- C3: `build_kpi_cards` finds the manager row by exact name equality
with "Chuanqi Li" and reports its percentage and head count; over the
remaining rows it reports a row of maximal `pct_val` as "highest" and a
row of minimal `pct_val` as "lowest"; on the concrete input with PDM
percentages 92%, 81%, 65% it selects 92% as highest and 65% as lowest. -/
theorem build_kpi_cards_manager_max_min :
    (∀ (rows : List Row) (r : Row),
      rows.find? (fun x => x.name == "Chuanqi Li") = some r →
      (build_kpi_cards rows).org_pct = r.l4_7 ∧
      (build_kpi_cards rows).org_count = r.empCount) ∧
    (∀ (rows : List Row) (h : Row) (t : List Row),
      (rows.filter fun x => x.name != "Chuanqi Li") = h :: t →
      (∃ hi ∈ h :: t, (build_kpi_cards rows).highest_pct = hi.l4_7 ∧
        (build_kpi_cards rows).highest_name = hi.name ∧
        ∀ r ∈ h :: t, pct_val r ≤ pct_val hi) ∧
      (∃ lo ∈ h :: t, (build_kpi_cards rows).lowest_pct = lo.l4_7 ∧
        (build_kpi_cards rows).lowest_name = lo.name ∧
        ∀ r ∈ h :: t, pct_val lo ≤ pct_val r)) ∧
    ((build_kpi_cards demoRows).highest_pct = "92%" ∧
     (build_kpi_cards demoRows).highest_name = "Bolun Yang" ∧
     (build_kpi_cards demoRows).lowest_pct = "65%" ∧
     (build_kpi_cards demoRows).lowest_name = "Vivian Wang (Ads)") := by
  refine ⟨?_, ?_, by decide⟩
  · intro rows r hfind
    obtain ⟨h1, h2⟩ := build_kpi_cards_org rows
    rw [hfind] at h1 h2
    exact ⟨h1, h2⟩
  · intro rows h t hpdm
    obtain ⟨h1, h2, h3, h4⟩ := build_kpi_cards_pdm hpdm
    exact ⟨⟨pyMaxBy pct_val h t, pyMaxBy_mem pct_val t h, h1, h2,
        pyMaxBy_ge pct_val t h⟩,
      ⟨pyMinBy pct_val h t, pyMinBy_mem pct_val t h, h3, h4,
        pyMinBy_le pct_val t h⟩⟩

/-- Witness for the C3 theorem at the concrete four-row input. -/
theorem build_kpi_cards_manager_max_min_witness :
    (build_kpi_cards demoRows).org_pct = "88%" ∧
    (build_kpi_cards demoRows).org_count = "120" :=
  build_kpi_cards_manager_max_min.1 demoRows
    ⟨"Chuanqi Li", "AI4P", "PD", "A", "T", "88%", "120"⟩ (by decide)

/-- C4: on a row whose percentage string does not parse, all three
colour functions return the lowest tier, but the bare `int()` of
`build_chart_data` line 225 has no exception handler, so report
generation fails (`none`) instead of rendering — the code contradicts
the spec's "percentage parse failures default to low/worst-case color". -/
theorem unparsable_percentage_colors_and_chart_crash :
    get_pill_class "N/A" = "low" ∧
    get_bar_color "N/A" = "#b91c1c" ∧
    get_bar_chart_color "N/A" = "#b91c1c" ∧
    chartInt naRow = none ∧
    build_chart_data [naRow] = none ∧
    generate_html [naRow] "Oct 11, 2025 at 08:00 AM PT" "2025-10-11 (latest ds)" =
      none := by
  decide

/-- C5: if filtering leaves no rows, the run aborts with an error exit
before any HTML is generated or written, and the previously published
file content is unchanged. -/
theorem runMain_empty_filter_keeps_previous (raw : List Row)
    (prevFile retrieved_at data_as_of : String)
    (h : filter_rows raw = []) :
    runMain raw prevFile retrieved_at data_as_of = (.aborted, prevFile) := by
  unfold runMain
  rw [h]
  rfl

/-- Witness for the C5 theorem: an input with no matching rows. -/
theorem runMain_empty_filter_keeps_previous_witness :
    runMain [⟨"Nobody Here", "p", "f", "a", "t", "10%", "1"⟩] "old content"
      "r" "d" = (.aborted, "old content") :=
  runMain_empty_filter_keeps_previous _ _ _ _ (by decide)

/-- C6: when no input row is named exactly "Chuanqi Li", the org KPI
fields are the sentinel "N/A" (the embedding is a total function: no
exception is raised on this path). -/
theorem build_kpi_cards_missing_manager_sentinel (rows : List Row)
    (h : ∀ r ∈ rows, r.name ≠ "Chuanqi Li") :
    (build_kpi_cards rows).org_pct = "N/A" ∧
    (build_kpi_cards rows).org_count = "N/A" := by
  have hfind : rows.find? (fun x => x.name == "Chuanqi Li") = none := by
    rw [List.find?_eq_none]
    intro x hx
    simp [h x hx]
  obtain ⟨h1, h2⟩ := build_kpi_cards_org rows
  rw [hfind] at h1 h2
  exact ⟨h1, h2⟩

/-- Witness for the C6 theorem: two PDM rows, no manager row. -/
theorem build_kpi_cards_missing_manager_sentinel_witness :
    (build_kpi_cards [zeroRow, fiftyRow]).org_pct = "N/A" ∧
    (build_kpi_cards [zeroRow, fiftyRow]).org_count = "N/A" :=
  build_kpi_cards_missing_manager_sentinel _ (by decide)

/-- C7: `filter_rows` is idempotent — filtering its own output returns
that output unchanged (hence in particular the same set of rows). -/
theorem filter_rows_idempotent (rows : List Row) :
    filter_rows (filter_rows rows) = filter_rows rows := by
  rw [filter_rows_eq_seq rows,
    filter_rows_eq_seq (filterRowsSeq INCLUDE_NAMES rows)]
  exact filterRowsSeq_fixed INCLUDE_NAMES _ (by decide) (by decide)
    (filterRowsSeq_map_name_sublist INCLUDE_NAMES rows)

/-- C8: the server registers exactly the two routes of `server.py`; the
root path serves `index.html` from the dashboard directory, and any
other path serves the file it names from the same directory. -/
theorem serveRequest_two_routes :
    dashboardRoutes.length = 2 ∧
    serveRequest "/" = some "index.html" ∧
    (∀ fn : String, fn ≠ "" → fn.toList.head? ≠ some '/' →
      serveRequest ("/" ++ fn) = some fn) := by
  refine ⟨rfl, rfl, ?_⟩
  intro fn hne hns
  cases hl : fn.toList with
  | nil =>
    exact absurd (by apply String.ext; simpa using hl) hne
  | cons c cs =>
    have hc : c ≠ '/' := by
      intro he
      apply hns
      rw [hl, he]
      rfl
    have hl' : fn.data = c :: cs := hl
    have hpath : ("/" ++ fn).toList = '/' :: c :: cs := by
      show ("/" ++ fn).data = '/' :: c :: cs
      rw [String.data_append, hl']
      rfl
    have hne2 : ("/" ++ fn) ≠ "/" := by
      intro he
      have hdat := congrArg String.toList he
      rw [hpath] at hdat
      simp at hdat
    unfold serveRequest
    rw [if_neg hne2, hpath]
    show (if c ≠ '/' then some (⟨c :: cs⟩ : String) else none) = some fn
    rw [if_pos hc]
    have hfn : (⟨c :: cs⟩ : String) = fn := by
      apply String.ext
      simpa using hl.symm
    rw [hfn]

/-- Witness for the C8 theorem at a concrete file name. -/
theorem serveRequest_two_routes_witness :
    serveRequest ("/" ++ "style.css") = some "style.css" :=
  serveRequest_two_routes.2.2 "style.css" (by decide) (by decide)

/-- C9: the output of `filter_rows` has at most four rows, every output
row is named by one of the four INCLUDE_NAMES, no canonical name occurs
twice, and the output names appear in INCLUDE_NAMES order (they form a
sublist of INCLUDE_NAMES), regardless of input order. -/
theorem filter_rows_output_shape (rows : List Row) :
    (filter_rows rows).length ≤ 4 ∧
    (∀ r ∈ filter_rows rows, r.name ∈ INCLUDE_NAMES) ∧
    ((filter_rows rows).map Row.name).Nodup ∧
    ((filter_rows rows).map Row.name).Sublist INCLUDE_NAMES := by
  have hsub : ((filter_rows rows).map Row.name).Sublist INCLUDE_NAMES := by
    rw [filter_rows_eq_seq]
    exact filterRowsSeq_map_name_sublist INCLUDE_NAMES rows
  refine ⟨?_, ?_, hsub.nodup (by decide), hsub⟩
  · have hlen := hsub.length_le
    rw [List.length_map] at hlen
    exact hlen
  · intro r hr
    exact hsub.subset (List.mem_map_of_mem _ hr)

/-- C10 (counterexample to the claim as stated): with the two PDM rows
[0% row, N/A row] a parse succeeds for another row (value 0), yet the
unparsable row is not selected as lowest — the tie at value 0 is won by
the earlier 0% row. -/
theorem kpi_lowest_unparsable_counterexample :
    pyInt (pyStrip (pyReplace naRow.l4_7 "%" "")) = none ∧
    pyInt (pyStrip (pyReplace zeroRow.l4_7 "%" "")) = some 0 ∧
    (build_kpi_cards [zeroRow, naRow]).lowest_name = "Eleanor Pachaud" ∧
    (build_kpi_cards [zeroRow, naRow]).lowest_name ≠ naRow.name := by
  decide

/-- C10 (amended): a non-manager row whose percentage fails to parse is
given value 0 rather than being skipped or raising, so it can be
selected as "lowest"; and whenever every parsing non-manager row has a
strictly positive value, the selected "lowest" row is one whose
percentage fails to parse. -/
theorem kpi_lowest_unparsable_behavior :
    (∀ r : Row, pyInt (pyStrip (pyReplace r.l4_7 "%" "")) = none →
      pct_val r = 0) ∧
    (∀ (rows : List Row) (h : Row) (t : List Row) (rna : Row),
      (rows.filter fun x => x.name != "Chuanqi Li") = h :: t →
      rna ∈ h :: t →
      pyInt (pyStrip (pyReplace rna.l4_7 "%" "")) = none →
      (∀ r ∈ h :: t,
        pyInt (pyStrip (pyReplace r.l4_7 "%" "")) = none ∨ 0 < pct_val r) →
      ∃ lo ∈ h :: t, pyInt (pyStrip (pyReplace lo.l4_7 "%" "")) = none ∧
        (build_kpi_cards rows).lowest_pct = lo.l4_7 ∧
        (build_kpi_cards rows).lowest_name = lo.name) ∧
    ((build_kpi_cards [naRow, fiftyRow]).lowest_name = naRow.name ∧
     (build_kpi_cards [naRow, fiftyRow]).lowest_pct = "N/A") := by
  have hzero : ∀ r : Row, pyInt (pyStrip (pyReplace r.l4_7 "%" "")) = none →
      pct_val r = 0 := by
    intro r h
    unfold pct_val
    rw [h]
    rfl
  refine ⟨hzero, ?_, by decide⟩
  intro rows h t rna hpdm hrna hnone hall
  obtain ⟨_, _, h3, h4⟩ := build_kpi_cards_pdm hpdm
  refine ⟨pyMinBy pct_val h t, pyMinBy_mem pct_val t h, ?_, h3, h4⟩
  have hle : pct_val (pyMinBy pct_val h t) ≤ pct_val rna :=
    pyMinBy_le pct_val t h rna hrna
  rw [hzero rna hnone] at hle
  rcases hall (pyMinBy pct_val h t) (pyMinBy_mem pct_val t h) with hn | hp
  · exact hn
  · omega

/-- Witness for the amended C10 theorem: with PDM rows [N/A row, 50%
row], the selected lowest row has an unparsable percentage. -/
theorem kpi_lowest_unparsable_behavior_witness :
    ∃ lo ∈ [naRow, fiftyRow],
      pyInt (pyStrip (pyReplace lo.l4_7 "%" "")) = none ∧
      (build_kpi_cards [naRow, fiftyRow]).lowest_pct = lo.l4_7 ∧
      (build_kpi_cards [naRow, fiftyRow]).lowest_name = lo.name :=
  kpi_lowest_unparsable_behavior.2.1 [naRow, fiftyRow] naRow [fiftyRow] naRow
    (by decide) (by decide) (by decide) (by decide)
